import Mathlib

/-!
Shallow embedding of the whats-cli ingestion and reconciliation engine
(`src/services/store.ts`, `src/services/whatsapp.ts`, `src/utils/formatters.ts`,
`src/types/index.ts`), together with proofs of the specification claims.

The SQLite tables are modelled as follows:
* `contacts` (PRIMARY KEY `jid`) as a total function `String → Option ContactRow`;
* `chats` and `messages` as lists of rows keyed by `jid` / `id`, so that row
  counts and the ordered read views are observable.
SQL `INSERT ... ON CONFLICT(...) DO UPDATE` becomes: replace the matching row
using the merge expressions, otherwise append the incoming row.
-/

namespace WhatsCli

/-- `MessageType` enum from `src/types/index.ts`. -/
inductive MessageType where
  | text | image | video | audio | document | sticker | contact | location | reaction | unknown
deriving DecidableEq, Repr

/-- `MessageStatus` enum from `src/types/index.ts`. -/
inductive MessageStatus where
  | pending | sent | delivered | read | error
deriving DecidableEq, Repr

/-- `ConnectionState` enum from `src/types/index.ts`. -/
inductive ConnectionState where
  | disconnected | connecting | qrReady | connected
deriving DecidableEq, Repr

/-- Row of the `contacts` table: `name` (phone addressbook) and `notify` (self-set). -/
structure ContactRow where
  name : String
  notify : String
deriving DecidableEq, Repr

/-- Row of the `chats` table (same shape as the `Chat` interface). -/
structure ChatRow where
  jid : String
  name : String
  lastMessage : String
  lastMessageAt : Nat
  unreadCount : Nat
  isGroup : Bool
deriving DecidableEq, Repr

/-- Row of the `messages` table (same shape as the `Message` interface). -/
structure MessageRow where
  id : String
  chatJid : String
  senderJid : String
  senderName : String
  body : String
  timestamp : Nat
  isFromMe : Bool
  status : MessageStatus
  type : MessageType
deriving DecidableEq, Repr

/-- The `contacts` table, addressed by its primary key. -/
def Contacts : Type := String → Option ContactRow

/-- The empty `contacts` table. -/
def noContacts : Contacts := fun _ => none

/-- `upsertContact` from `store.ts`: insert `(jid, name, notify)`; on conflict each
field is replaced only when the incoming (excluded) value is non-empty. -/
def upsertContact (jid nm notify : String) (tbl : Contacts) : Contacts :=
  fun j =>
    if j = jid then
      some (match tbl jid with
        | none => ⟨nm, notify⟩
        | some old =>
            ⟨if nm ≠ "" then nm else old.name,
             if notify ≠ "" then notify else old.notify⟩)
    else tbl j

/-- `getContactName` from `store.ts`: `row.name || row.notify || null`. -/
def getContactName (tbl : Contacts) (jid : String) : Option String :=
  match tbl jid with
  | none => none
  | some row =>
      if row.name ≠ "" then some row.name
      else if row.notify ≠ "" then some row.notify
      else none

/-- The `ON CONFLICT(jid) DO UPDATE` clause of `upsertChat`: name is non-empty-wins,
preview is replaced only when the incoming timestamp is strictly greater, the
timestamp takes the max, unread count and group flag are overwritten verbatim. -/
def mergeChat (old incoming : ChatRow) : ChatRow :=
  { jid := old.jid
    name := if incoming.name ≠ "" then incoming.name else old.name
    lastMessage := if old.lastMessageAt < incoming.lastMessageAt then incoming.lastMessage else old.lastMessage
    lastMessageAt := max incoming.lastMessageAt old.lastMessageAt
    unreadCount := incoming.unreadCount
    isGroup := incoming.isGroup }

/-- `upsertChat` from `store.ts`. -/
def upsertChat (c : ChatRow) (tbl : List ChatRow) : List ChatRow :=
  if tbl.any (fun r => r.jid = c.jid) then
    tbl.map (fun r => if r.jid = c.jid then mergeChat r c else r)
  else tbl ++ [c]

/-- `SELECT ... FROM chats WHERE jid = ?`. -/
def lookupChat (tbl : List ChatRow) (jid : String) : Option ChatRow :=
  tbl.find? (fun r => r.jid = jid)

/-- `incrementUnreadCount` from `store.ts`. -/
def incrementUnreadCount (jid : String) (tbl : List ChatRow) : List ChatRow :=
  tbl.map (fun r => if r.jid = jid then { r with unreadCount := r.unreadCount + 1 } else r)

/-- `resetUnreadCount` from `store.ts`. -/
def resetUnreadCount (jid : String) (tbl : List ChatRow) : List ChatRow :=
  tbl.map (fun r => if r.jid = jid then { r with unreadCount := 0 } else r)

/-- `updateChatName` from `store.ts`. -/
def updateChatName (jid nm : String) (tbl : List ChatRow) : List ChatRow :=
  tbl.map (fun r => if r.jid = jid then { r with name := nm } else r)

/-- `upsertMessage` from `store.ts`: `INSERT OR REPLACE` keyed by message id. -/
def upsertMessage (m : MessageRow) (tbl : List MessageRow) : List MessageRow :=
  if tbl.any (fun r => r.id = m.id) then
    tbl.map (fun r => if r.id = m.id then m else r)
  else tbl ++ [m]

/-- `SELECT ... FROM messages WHERE id = ?`. -/
def lookupMessage (tbl : List MessageRow) (id : String) : Option MessageRow :=
  tbl.find? (fun r => r.id = id)

/-- `SELECT COUNT(*) FROM messages WHERE chat_jid = ?`. -/
def chatMessageCount (tbl : List MessageRow) (jid : String) : Nat :=
  (tbl.filter (fun r => r.chatJid = jid)).length

/-- `COALESCE(NULLIF(ct.name, ''), NULLIF(ct.notify, ''), '')` over the LEFT JOIN
row of the `contacts` table in `getAllChats`. -/
def contactDisplay (c : Option ContactRow) : String :=
  match c with
  | none => ""
  | some ct => if ct.name ≠ "" then ct.name else if ct.notify ≠ "" then ct.notify else ""

/-- `getAllChats` from `store.ts`: chats ordered by `last_message_at DESC`, each
row's name replaced by `contact_name || row.name`. -/
def getAllChats (chats : List ChatRow) (contacts : Contacts) : List ChatRow :=
  (List.insertionSort (fun a b : ChatRow => b.lastMessageAt ≤ a.lastMessageAt) chats).map
    (fun row =>
      let cn := contactDisplay (contacts row.jid)
      { row with name := if cn ≠ "" then cn else row.name })

/-- `jidToPhoneNumber` from `formatters.ts`: `jid.split('@')[0]` is the prefix of
the string before the first `'@'`; the result is `"+" ++` that prefix, or the
jid itself when the prefix is empty. -/
def jidToPhoneNumber (jid : String) : String :=
  let number := String.mk (jid.data.takeWhile (fun c => c ≠ '@'))
  if number ≠ "" then "+" ++ number else jid

/-- `isGroupJid` from `formatters.ts`: `jid.endsWith('@g.us')`. -/
def isGroupJid (jid : String) : Bool :=
  "@g.us".data.isSuffixOf jid.data

/-! ### Connection lifecycle (`WhatsAppService.connect`, `connection.update` handler) -/

/-- Baileys `DisconnectReason.loggedOut` (HTTP status code 401). -/
def loggedOut : Nat := 401

/-- `maxRetries` field of `WhatsAppService`. -/
def maxRetries : Nat := 5

/-- Mutable connection state of `WhatsAppService`: the retry counter plus the
most recently emitted `connection-state`. -/
structure ConnMgr where
  retryCount : Nat
  state : ConnectionState
deriving DecidableEq, Repr

/-- The `connection === 'close'` branch of the `connection.update` handler.
`statusCode` is `(lastDisconnect?.error as Boom)?.output?.statusCode`.
Returns the new manager state and the scheduled reconnect delay in ms
(`none` when no reconnect is scheduled). -/
def handleClose (m : ConnMgr) (statusCode : Option Nat) : ConnMgr × Option Nat :=
  let shouldReconnect := statusCode ≠ some loggedOut
  if shouldReconnect ∧ m.retryCount < maxRetries then
    let rc := m.retryCount + 1
    (⟨rc, ConnectionState.connecting⟩, some (min (1000 * rc) 10000))
  else
    (⟨m.retryCount, ConnectionState.disconnected⟩, none)

/-- The `connection === 'open'` branch: reset the retry counter, go `Connected`. -/
def handleOpen (_m : ConnMgr) : ConnMgr :=
  ⟨0, ConnectionState.connected⟩

/-- State reached after `n` consecutive non-logout closes (statusCode absent),
starting from `m`. -/
def closesFrom (m : ConnMgr) : Nat → ConnMgr
  | 0 => m
  | n + 1 => (handleClose (closesFrom m n) none).1

/-! ### ContentExtractor (`WhatsAppService.extractContent`)

`WAMessageContent` is embedded as a recursive sum-of-fields record. Optional
sub-objects are flattened to the parts `extractContent` reads:
* the six wrapper kinds each hold the wrapper's `.message` (a wrapper object
  that is present but has no `.message` behaves exactly like an absent wrapper
  in `extractContent`, so the two are identified);
* `protocolMessage` holds `(type, editedMessage)`;
* plain string fields that the code only probes through `||` / truthiness
  (`conversation`) are kept as `String` with `""` for absent;
* `extendedTextMessage` keeps object presence separate from its `.text`
  (the skip-guard tests the object, the text branch tests `.text`);
* media/interactive kinds keep just the field(s) the table reads. -/

inductive WAContent where
  | mk
      (ephemeralMessage : Option WAContent)
      (viewOnceMessage : Option WAContent)
      (viewOnceMessageV2 : Option WAContent)
      (viewOnceMessageV2Extension : Option WAContent)
      (documentWithCaptionMessage : Option WAContent)
      (editedMessage : Option WAContent)
      (protocolMessage : Option (Option Nat × Option WAContent))
      (senderKeyDistributionMessage : Bool)
      (conversation : String)
      (extendedTextMessage : Option String)
      (imageMessage : Option String)
      (videoMessage : Option String)
      (audioMessage : Option Bool)
      (documentMessage : Option String)
      (stickerMessage : Bool)
      (contactMessage : Option String)
      (contactsArrayMessage : Option Nat)
      (locationMessage : Bool)
      (liveLocationMessage : Bool)
      (reactionMessage : Option String)
      (pollCreationMessage : Option String)
      (pollCreationMessageV2 : Option String)
      (pollCreationMessageV3 : Option String)
      (pollUpdateMessage : Bool)
      (listMessage : Option (String × String))
      (buttonsMessage : Option String)
      (templateMessage : Bool)
      (groupInviteMessage : Option String)
      (interactiveMessage : Option (String × String))
      (orderMessage : Bool)
      (paymentInviteMessage : Bool)
      (pinInChatMessage : Bool)
      (keepInChatMessage : Bool)

/-- Result of `extractContent`: the `{ body, type }` pair. -/
structure ExtractResult where
  body : String
  type : MessageType
deriving DecidableEq, Repr

/-- The terminal content-classification table of `extractContent` (everything
after the wrapper and protocol/key-distribution checks). -/
def extractTerminal
    (conversation : String) (extendedTextMessage : Option String)
    (imageMessage videoMessage : Option String) (audioMessage : Option Bool)
    (documentMessage : Option String) (stickerMessage : Bool)
    (contactMessage : Option String) (contactsArrayMessage : Option Nat)
    (locationMessage liveLocationMessage : Bool) (reactionMessage : Option String)
    (pollCreationMessage pollCreationMessageV2 pollCreationMessageV3 : Option String)
    (pollUpdateMessage : Bool) (listMessage : Option (String × String))
    (buttonsMessage : Option String) (templateMessage : Bool)
    (groupInviteMessage : Option String) (interactiveMessage : Option (String × String))
    (orderMessage paymentInviteMessage pinInChatMessage keepInChatMessage : Bool) :
    ExtractResult :=
  if conversation ≠ "" then ⟨conversation, MessageType.text⟩
  else if extendedTextMessage.getD "" ≠ "" then ⟨extendedTextMessage.getD "", MessageType.text⟩
  else match imageMessage with
  | some cap => ⟨if cap ≠ "" then cap else "📷 Photo", MessageType.image⟩
  | none => match videoMessage with
  | some cap => ⟨if cap ≠ "" then cap else "🎥 Video", MessageType.video⟩
  | none => match audioMessage with
  | some ptt => ⟨if ptt then "🎤 Voice message" else "🎵 Audio", MessageType.audio⟩
  | none => match documentMessage with
  | some fn => ⟨if fn ≠ "" then fn else "📄 Document", MessageType.document⟩
  | none =>
  if stickerMessage then ⟨"🏷️ Sticker", MessageType.sticker⟩
  else match contactMessage with
  | some dn => ⟨if dn ≠ "" then dn else "👤 Contact", MessageType.contact⟩
  | none => match contactsArrayMessage with
  | some count => ⟨"👥 " ++ toString count ++ " contacts", MessageType.contact⟩
  | none =>
  if locationMessage then ⟨"📍 Location", MessageType.location⟩
  else if liveLocationMessage then ⟨"📍 Live location", MessageType.location⟩
  else match reactionMessage with
  | some t => ⟨if t ≠ "" then t else "❤️", MessageType.reaction⟩
  | none =>
  match (pollCreationMessage <|> pollCreationMessageV2 <|> pollCreationMessageV3 : Option String) with
  | some nm => ⟨"📊 Poll: " ++ (if nm ≠ "" then nm else "Poll"), MessageType.text⟩
  | none =>
  if pollUpdateMessage then ⟨"📊 Poll vote", MessageType.text⟩
  else match listMessage with
  | some (title, description) =>
      ⟨if title ≠ "" then title else if description ≠ "" then description else "📋 List",
       MessageType.text⟩
  | none => match buttonsMessage with
  | some ct => ⟨if ct ≠ "" then ct else "🔘 Buttons", MessageType.text⟩
  | none =>
  if templateMessage then ⟨"📝 Template", MessageType.text⟩
  else match groupInviteMessage with
  | some gn => ⟨"📨 Group invite: " ++ (if gn ≠ "" then gn else "Group"), MessageType.text⟩
  | none => match interactiveMessage with
  | some (bodyText, headerTitle) =>
      ⟨if bodyText ≠ "" then bodyText
       else if headerTitle ≠ "" then headerTitle
       else "🔲 Interactive message", MessageType.text⟩
  | none =>
  if orderMessage then ⟨"🛒 Order", MessageType.text⟩
  else if paymentInviteMessage then ⟨"💰 Payment", MessageType.text⟩
  else if pinInChatMessage then ⟨"📌 Pinned a message", MessageType.text⟩
  else if keepInChatMessage then ⟨"📌 Kept a message", MessageType.text⟩
  else ⟨"💬 [Unsupported message]", MessageType.unknown⟩

/-- `extractContent` from `whatsapp.ts`. -/
def extractContent : Option WAContent → ExtractResult
  | none => ⟨"", MessageType.unknown⟩
  | some (WAContent.mk eph v1 v2 v2e dwc ed protoM skdm conv ext img vid aud docm stick cont
      contArr loc lloc react poll1 poll2 poll3 pollUpd lst btn tpl gInv inter ord pay pin keep) =>
    match eph, v1, v2, v2e, dwc, ed with
    | some m, _, _, _, _, _ => extractContent (some m)
    | none, some m, _, _, _, _ => extractContent (some m)
    | none, none, some m, _, _, _ => extractContent (some m)
    | none, none, none, some m, _, _ => extractContent (some m)
    | none, none, none, none, some m, _ => extractContent (some m)
    | none, none, none, none, none, some m => extractContent (some m)
    | none, none, none, none, none, none =>
      match protoM with
      | some (protoType, some edited) =>
          if protoType = some 14 then extractContent (some edited)
          else ⟨"", MessageType.unknown⟩
      | some (_, none) => ⟨"", MessageType.unknown⟩
      | none =>
        if skdm ∧ conv = "" ∧ ext = none then ⟨"", MessageType.unknown⟩
        else
          extractTerminal conv ext img vid aud docm stick cont contArr loc lloc react
            poll1 poll2 poll3 pollUpd lst btn tpl gInv inter ord pay pin keep

/-- A content envelope holding only a plain-text `conversation` payload. -/
def textMsg (s : String) : WAContent :=
  WAContent.mk none none none none none none none false s none none none none none false
    none none false false none none none none false none none false none none false false false false

/-- An `ephemeralMessage` wrapper around `m`. -/
def ephemeralWrap (m : WAContent) : WAContent :=
  WAContent.mk (some m) none none none none none none false "" none none none none none false
    none none false false none none none none false none none false none none false false false false

/-- A `viewOnceMessage` wrapper around `m`. -/
def viewOnceWrap (m : WAContent) : WAContent :=
  WAContent.mk none (some m) none none none none none false "" none none none none none false
    none none false false none none none none false none none false none none false false false false

/-- An `editedMessage` wrapper around `m`. -/
def editedWrap (m : WAContent) : WAContent :=
  WAContent.mk none none none none none (some m) none false "" none none none none none false
    none none false false none none none none false none none false none none false false false false

/-- A content envelope whose only entry is a `protocolMessage` with the given
`type` and optional embedded `editedMessage`. -/
def protoNotif (pt : Option Nat) (ed : Option WAContent) : WAContent :=
  WAContent.mk none none none none none none (some (pt, ed)) false "" none none none none none
    false none none false false none none none none false none none false none none false false false false

/-- A wrapper-free envelope combining an optional key-distribution entry with a
`conversation` text, an `extendedTextMessage` and an image caption. -/
def probeEnvelope (skdm : Bool) (conversation : String) (extText imgCaption : Option String) :
    WAContent :=
  WAContent.mk none none none none none none none skdm conversation extText imgCaption none none
    none false none none false false none none none none false none none false none none false false false false

/-! ### Message parsing and the `messages.upsert` handler -/

/-- JavaScript `a || b` for an optional string `a` (both `null` and `""` fall through). -/
def jsOr (a : Option String) (b : String) : String :=
  match a with
  | some s => if s ≠ "" then s else b
  | none => b

/-- The `key` of a Baileys `WAMessage`. -/
structure WAKey where
  remoteJid : Option String
  fromMe : Option Bool
  participant : Option String
  id : Option String
deriving DecidableEq, Repr

/-- The parts of a Baileys `proto.IWebMessageInfo` that the engine reads. -/
structure WAMsg where
  key : Option WAKey
  pushName : Option String
  messageTimestamp : Option Nat
  status : Option Nat
  message : Option WAContent

/-- `mapStatus` from `whatsapp.ts`. -/
def mapStatus : Option Nat → MessageStatus
  | some 0 => MessageStatus.error
  | some 1 => MessageStatus.pending
  | some 2 => MessageStatus.sent
  | some 3 => MessageStatus.delivered
  | some 4 => MessageStatus.read
  | _ => MessageStatus.sent

/-- String form of a `MessageType` (the enum's string value, used in `[${type}]`). -/
def MessageType.toStr : MessageType → String
  | MessageType.text => "text"
  | MessageType.image => "image"
  | MessageType.video => "video"
  | MessageType.audio => "audio"
  | MessageType.document => "document"
  | MessageType.sticker => "sticker"
  | MessageType.contact => "contact"
  | MessageType.location => "location"
  | MessageType.reaction => "reaction"
  | MessageType.unknown => "unknown"

/-- `parseMessage` from `whatsapp.ts`. `now` stands for `Date.now()`. -/
def parseMessage (now : Nat) (msg : WAMsg) : Option MessageRow :=
  match msg.key with
  | none => none
  | some key =>
    match key.remoteJid with
    | none => none
    | some rjid =>
      if rjid = "" then none
      else
        let chatJid := rjid
        let isFromMe := key.fromMe.getD false
        let senderJid := if isFromMe then "me" else jsOr key.participant (jsOr key.remoteJid "")
        let timestamp :=
          match msg.messageTimestamp with
          | some t => if t ≠ 0 then t * 1000 else now
          | none => now
        let res := extractContent msg.message
        let senderName :=
          if isFromMe then "You"
          else match msg.pushName with
            | some p => if p ≠ "" then p else jidToPhoneNumber senderJid
            | none => jidToPhoneNumber senderJid
        some
          { id := key.id.getD ("msg-" ++ toString timestamp)
            chatJid := chatJid
            senderJid := senderJid
            senderName := senderName
            body := res.body
            timestamp := timestamp
            isFromMe := isFromMe
            status := mapStatus msg.status
            type := res.type }

/-- The three persistent tables. -/
structure Store where
  contacts : Contacts
  chats : List ChatRow
  messages : List MessageRow

/-- The per-message body of the `messages.upsert` handler in
`WhatsAppService.connect`. -/
def handleIncomingMessage (now : Nat) (s : Store) (msg : WAMsg) : Store :=
  match msg.key with
  | none => s
  | some key =>
    match key.remoteJid with
    | none => s
    | some rjid =>
      if rjid = "" then s
      else if rjid = "status@broadcast" then s
      else
        match parseMessage now msg with
        | none => s
        | some parsed =>
          if parsed.body = "" then s
          else
            let contacts :=
              if ¬parsed.isFromMe ∧ (msg.pushName.getD "") ≠ "" then
                let senderJid := jsOr key.participant (jsOr key.remoteJid "")
                if senderJid ≠ "" ∧ senderJid ≠ "status@broadcast" then
                  upsertContact senderJid "" (msg.pushName.getD "") s.contacts
                else s.contacts
              else s.contacts
            let chatJid := parsed.chatJid
            let resolvedName :=
              match getContactName contacts chatJid with
              | some n => n
              | none =>
                  if parsed.senderName ≠ "" then parsed.senderName
                  else jidToPhoneNumber chatJid
            let chat : ChatRow :=
              { jid := chatJid
                name := if parsed.isFromMe then (getContactName contacts chatJid).getD "" else resolvedName
                lastMessage := if parsed.body ≠ "" then parsed.body else "[" ++ parsed.type.toStr ++ "]"
                lastMessageAt := parsed.timestamp
                unreadCount := 0
                isGroup := isGroupJid chatJid }
            let chats := upsertChat chat s.chats
            let messages := upsertMessage parsed s.messages
            let chats := if ¬parsed.isFromMe then incrementUnreadCount chatJid chats else chats
            ⟨contacts, chats, messages⟩

/-! ### Outbound send (`WhatsAppService.sendMessage`) -/

/-- Outcome of the transport call `sock.sendMessage(jid, { text })`:
the socket may be absent, the promise may reject, it may resolve to a
nullish value, or it may resolve to a message whose `key.id` may be absent. -/
inductive SendOutcome where
  | noSock
  | reject
  | sentNull
  | ok (id : Option String)
deriving DecidableEq, Repr

/-- `sendMessage` from `whatsapp.ts`. `now` stands for `Date.now()`. Returns the
value reported to the caller and the resulting store. -/
def sendMessage (outcome : SendOutcome) (now : Nat) (jid text : String) (s : Store) :
    Option MessageRow × Store :=
  match outcome with
  | SendOutcome.noSock => (none, s)
  | SendOutcome.reject => (none, s)
  | SendOutcome.sentNull => (none, s)
  | SendOutcome.ok idOpt =>
      let msg : MessageRow :=
        { id := jsOr idOpt ("local-" ++ toString now)
          chatJid := jid
          senderJid := "me"
          senderName := "You"
          body := text
          timestamp := now
          isFromMe := true
          status := MessageStatus.sent
          type := MessageType.text }
      let messages := upsertMessage msg s.messages
      let chat : ChatRow :=
        { jid := jid
          name := ""
          lastMessage := text
          lastMessageAt := now
          unreadCount := 0
          isGroup := isGroupJid jid }
      let chats := upsertChat chat s.chats
      (some msg, ⟨s.contacts, chats, messages⟩)

/-! ### ChangeNotifier (`WhatsAppService.notifyChatsChanged`)

The debounce is embedded as a trace semantics of the `setTimeout` /
`clearTimeout` pair: given the (chronological) times of the internal calls,
a call at time `t` schedules the external signal for `t + 300`; the next call
cancels that pending timer iff it arrives strictly before `t + 300`. The
result is the list of times at which `chats-changed` is emitted. -/

/-- Quiescence window of `notifyChatsChanged` in ms. -/
def debounceWindow : Nat := 300

/-- Emission times of the debounced `chats-changed` signal for a chronological
list of internal call times. -/
def debounceEmits : List Nat → List Nat
  | [] => []
  | [t] => [t + debounceWindow]
  | t :: t' :: rest =>
      (if t' < t + debounceWindow then [] else [t + debounceWindow]) ++ debounceEmits (t' :: rest)

/-- The first three links of the spec's display-name priority chain
(addressbook name → notify name → conversation's own stored name), written from
the spec's words for comparison against `getAllChats`. -/
def displayNameChain (contact : Option ContactRow) (storedName : String) : String :=
  match contact with
  | some ct => if ct.name ≠ "" then ct.name else if ct.notify ≠ "" then ct.notify else storedName
  | none => storedName

/-! ## Helper lemmas -/

theorem mergeChat_jid (old c : ChatRow) : (mergeChat old c).jid = old.jid := rfl

theorem upsertChat_cons_ne (c r : ChatRow) (rs : List ChatRow) (h : ¬ r.jid = c.jid) :
    upsertChat c (r :: rs) = r :: upsertChat c rs := by
  by_cases hrs : rs.any (fun x => x.jid = c.jid) = true
  · simp [upsertChat, List.any_cons, h, hrs]
  · simp [upsertChat, List.any_cons, h, hrs]

theorem lookupChat_upsertChat_self (c : ChatRow) (tbl : List ChatRow) :
    lookupChat (upsertChat c tbl) c.jid =
      some ((lookupChat tbl c.jid).elim c (fun old => mergeChat old c)) := by
  induction tbl with
  | nil => simp [upsertChat, lookupChat]
  | cons r rs ih =>
    by_cases h : r.jid = c.jid
    · have hany : (r :: rs).any (fun x => x.jid = c.jid) = true := by
        simp [List.any_cons, h]
      simp [upsertChat, hany, lookupChat, List.find?_cons, h, mergeChat_jid]
    · rw [upsertChat_cons_ne c r rs h]
      simp only [lookupChat] at ih ⊢
      rw [List.find?_cons_of_neg _ (by simpa using h), List.find?_cons_of_neg _ (by simpa using h)]
      exact ih

theorem lookupChat_incrementUnread_self (jid : String) (tbl : List ChatRow) :
    lookupChat (incrementUnreadCount jid tbl) jid =
      (lookupChat tbl jid).map (fun r => { r with unreadCount := r.unreadCount + 1 }) := by
  induction tbl with
  | nil => simp [incrementUnreadCount, lookupChat]
  | cons r rs ih =>
    by_cases h : r.jid = jid
    · simp [incrementUnreadCount, lookupChat, List.find?_cons, h]
    · simp only [incrementUnreadCount, List.map_cons, if_neg h, lookupChat] at ih ⊢
      rw [List.find?_cons_of_neg _ (by simpa using h), List.find?_cons_of_neg _ (by simpa using h)]
      exact ih

theorem lookupChat_mem (tbl : List ChatRow) (jid : String) (r : ChatRow)
    (h : lookupChat tbl jid = some r) : r ∈ tbl ∧ r.jid = jid := by
  refine ⟨List.mem_of_find?_eq_some h, ?_⟩
  have := List.find?_some h
  simpa using this

/-! ## C1: conversation upserts -/

/-- C1. Conversation upserts are order-independent and timestamp-monotonic: for
two upserts on the same jid with timestamps `t1 < t2`, applied in either order
against a store whose stored timestamp for that jid (if any) is below `t2`, the
stored row ends with timestamp `max t1 t2` and the preview of the
maximum-timestamp upsert; and an upsert whose timestamp is not strictly greater
than the stored one never changes the stored preview or timestamp.  (The
freshness hypothesis is forced by the claim's own final clause: a stored
timestamp at or above `t2` wins the merge and keeps its preview.) -/
theorem upsertChat_order_independent (s : List ChatRow) (u1 u2 : ChatRow)
    (hjid : u1.jid = u2.jid)
    (ht : u1.lastMessageAt < u2.lastMessageAt)
    (hfresh : ∀ r ∈ s, r.jid = u2.jid → r.lastMessageAt < u2.lastMessageAt) :
    (∃ r, lookupChat (upsertChat u2 (upsertChat u1 s)) u2.jid = some r ∧
        r.lastMessageAt = max u1.lastMessageAt u2.lastMessageAt ∧
        r.lastMessage = u2.lastMessage) ∧
    (∃ r, lookupChat (upsertChat u1 (upsertChat u2 s)) u2.jid = some r ∧
        r.lastMessageAt = max u1.lastMessageAt u2.lastMessageAt ∧
        r.lastMessage = u2.lastMessage) ∧
    (∀ (u r : ChatRow), lookupChat s u.jid = some r →
        u.lastMessageAt ≤ r.lastMessageAt →
        ∃ r', lookupChat (upsertChat u s) u.jid = some r' ∧
            r'.lastMessage = r.lastMessage ∧ r'.lastMessageAt = r.lastMessageAt) := by
  have hmax : max u1.lastMessageAt u2.lastMessageAt = u2.lastMessageAt :=
    Nat.max_eq_right (Nat.le_of_lt ht)
  refine ⟨?_, ?_, ?_⟩
  · -- u1 then u2
    have h1 := lookupChat_upsertChat_self u1 s
    rw [hjid] at h1
    have h2 := lookupChat_upsertChat_self u2 (upsertChat u1 s)
    rw [h1] at h2
    cases hL : lookupChat s u2.jid with
    | none =>
        rw [hL] at h1 h2
        simp only [Option.elim] at h2
        refine ⟨mergeChat u1 u2, h2, ?_, ?_⟩
        · simp [mergeChat, Nat.max_comm]
        · simp [mergeChat, ht]
    | some old =>
        rw [hL] at h1 h2
        simp only [Option.elim] at h2
        have hold : old.lastMessageAt < u2.lastMessageAt := by
          obtain ⟨hmem, hj⟩ := lookupChat_mem s u2.jid old hL
          exact hfresh old hmem hj
        refine ⟨mergeChat (mergeChat old u1) u2, h2, ?_, ?_⟩
        · simp only [mergeChat]
          omega
        · simp only [mergeChat]
          split
          · rfl
          · next hc => exact absurd (by omega) hc
  · -- u2 then u1
    have h1 := lookupChat_upsertChat_self u2 s
    have h2 := lookupChat_upsertChat_self u1 (upsertChat u2 s)
    rw [hjid, h1] at h2
    cases hL : lookupChat s u2.jid with
    | none =>
        rw [hL] at h1 h2
        simp only [Option.elim] at h2
        refine ⟨mergeChat u2 u1, h2, ?_, ?_⟩
        · simp only [mergeChat]
        · simp only [mergeChat]
          split
          · next hc => exact absurd hc (by omega)
          · rfl
    | some old =>
        rw [hL] at h1 h2
        simp only [Option.elim] at h2
        have hold : old.lastMessageAt < u2.lastMessageAt := by
          obtain ⟨hmem, hj⟩ := lookupChat_mem s u2.jid old hL
          exact hfresh old hmem hj
        refine ⟨mergeChat (mergeChat old u2) u1, h2, ?_, ?_⟩
        · simp only [mergeChat]
          omega
        · simp only [mergeChat]
          split
          · next hc => exact absurd hc (by omega)
          · rfl
  · intro u r hr hle
    have h := lookupChat_upsertChat_self u s
    rw [hr] at h
    simp only [Option.elim] at h
    refine ⟨mergeChat r u, h, ?_, ?_⟩
    · simp [mergeChat, Nat.not_lt.mpr hle]
    · simp [mergeChat, Nat.max_eq_right hle]

/-- Witness for C1 at concrete inputs. -/
theorem upsertChat_order_independent_witness :
    (∃ r, lookupChat (upsertChat ⟨"A", "", "two", 2000, 0, false⟩
            (upsertChat ⟨"A", "", "one", 1000, 0, false⟩ [])) "A" = some r ∧
        r.lastMessageAt = max 1000 2000 ∧ r.lastMessage = "two") ∧
    (∃ r, lookupChat (upsertChat ⟨"A", "", "one", 1000, 0, false⟩
            (upsertChat ⟨"A", "", "two", 2000, 0, false⟩ [])) "A" = some r ∧
        r.lastMessageAt = max 1000 2000 ∧ r.lastMessage = "two") := by
  have h := upsertChat_order_independent []
      ⟨"A", "", "one", 1000, 0, false⟩ ⟨"A", "", "two", 2000, 0, false⟩
      rfl (by decide) (by intro r hr; cases hr)
  exact ⟨h.1, h.2.1⟩

/-! ## C4: message redelivery -/

theorem upsertMessage_cons_ne (m r : MessageRow) (rs : List MessageRow) (h : ¬ r.id = m.id) :
    upsertMessage m (r :: rs) = r :: upsertMessage m rs := by
  by_cases hrs : rs.any (fun x => x.id = m.id) = true
  · simp [upsertMessage, List.any_cons, h, hrs]
  · simp [upsertMessage, List.any_cons, h, hrs]

theorem lookupMessage_upsertMessage_self (m : MessageRow) (tbl : List MessageRow) :
    lookupMessage (upsertMessage m tbl) m.id = some m := by
  induction tbl with
  | nil => simp [upsertMessage, lookupMessage]
  | cons r rs ih =>
    by_cases h : r.id = m.id
    · have hany : (r :: rs).any (fun x => x.id = m.id) = true := by simp [List.any_cons, h]
      simp [upsertMessage, hany, lookupMessage, List.find?_cons, h]
    · rw [upsertMessage_cons_ne m r rs h]
      simp only [lookupMessage] at ih ⊢
      rw [List.find?_cons_of_neg _ (by simpa using h)]
      exact ih

theorem chatMessageCount_cons (x : MessageRow) (l : List MessageRow) (jid : String) :
    chatMessageCount (x :: l) jid
      = chatMessageCount l jid + (if x.chatJid = jid then 1 else 0) := by
  by_cases h : x.chatJid = jid <;> simp [chatMessageCount, List.filter_cons, h]

theorem count_map_replace (m : MessageRow) (jid : String) :
    ∀ tbl : List MessageRow, (∀ r ∈ tbl, r.id = m.id → r.chatJid = m.chatJid) →
      chatMessageCount (tbl.map (fun r => if r.id = m.id then m else r)) jid
        = chatMessageCount tbl jid := by
  intro tbl
  induction tbl with
  | nil => intro _; rfl
  | cons r rs ih =>
    intro hsame
    have hrs := fun x hx => hsame x (List.mem_cons_of_mem r hx)
    rw [List.map_cons, chatMessageCount_cons, chatMessageCount_cons, ih hrs]
    congr 1
    by_cases h : r.id = m.id
    · have hcj : r.chatJid = m.chatJid := hsame r (List.mem_cons_self r rs) h
      simp [h, hcj]
    · simp [h]

theorem chatMessageCount_append_single (tbl : List MessageRow) (m : MessageRow) (jid : String) :
    chatMessageCount (tbl ++ [m]) jid =
      chatMessageCount tbl jid + (if m.chatJid = jid then 1 else 0) := by
  by_cases h : m.chatJid = jid
  · simp [chatMessageCount, List.filter_append, List.filter_cons, h]
  · simp [chatMessageCount, List.filter_append, List.filter_cons, h]

/-- C4. Redelivery of an existing message ID is a full in-place replace: the
stored row (status included) becomes the incoming message, no duplicate row is
created, and every conversation's message count is unchanged; an upsert with a
fresh ID appends exactly one row (to its own conversation's count only). The
redelivery hypotheses say the ID is already present and (as for any genuine
redelivery) attached to the same conversation. -/
theorem upsertMessage_redelivery_replace (tbl : List MessageRow) (m : MessageRow) :
    ((∃ r ∈ tbl, r.id = m.id) →
      (∀ r ∈ tbl, r.id = m.id → r.chatJid = m.chatJid) →
        (upsertMessage m tbl).length = tbl.length ∧
        (∀ jid, chatMessageCount (upsertMessage m tbl) jid = chatMessageCount tbl jid) ∧
        lookupMessage (upsertMessage m tbl) m.id = some m) ∧
    ((∀ r ∈ tbl, r.id ≠ m.id) →
        (upsertMessage m tbl).length = tbl.length + 1 ∧
        chatMessageCount (upsertMessage m tbl) m.chatJid = chatMessageCount tbl m.chatJid + 1 ∧
        (∀ jid, jid ≠ m.chatJid → chatMessageCount (upsertMessage m tbl) jid = chatMessageCount tbl jid) ∧
        lookupMessage (upsertMessage m tbl) m.id = some m) := by
  constructor
  · intro hex hsame
    have hany : tbl.any (fun x => x.id = m.id) = true := by
      rw [List.any_eq_true]
      obtain ⟨r, hr, hid⟩ := hex
      exact ⟨r, hr, by simpa using hid⟩
    refine ⟨?_, ?_, lookupMessage_upsertMessage_self m tbl⟩
    · simp [upsertMessage, hany]
    · intro jid
      simp only [upsertMessage, hany, if_true]
      exact count_map_replace m jid tbl hsame
  · intro hne
    have hany : tbl.any (fun x => x.id = m.id) = false := by
      rw [List.any_eq_false]
      intro x hx
      simpa using hne x hx
    have hrepr : upsertMessage m tbl = tbl ++ [m] := by
      simp [upsertMessage, hany]
    refine ⟨?_, ?_, ?_, lookupMessage_upsertMessage_self m tbl⟩
    · simp [hrepr]
    · rw [hrepr, chatMessageCount_append_single]
      simp
    · intro jid hj
      rw [hrepr, chatMessageCount_append_single,
        if_neg (show ¬ m.chatJid = jid from fun h => hj (Eq.symm h))]
      rfl

/-- Witness for C4 at concrete inputs: redelivering `id1` with a new status
replaces the row and keeps all counts; inserting fresh `id2` appends one row. -/
theorem upsertMessage_redelivery_replace_witness :
    ((upsertMessage ⟨"id1", "A", "x", "X", "hi", 1, false, MessageStatus.read, MessageType.text⟩
        [⟨"id1", "A", "x", "X", "hi", 1, false, MessageStatus.sent, MessageType.text⟩]).length = 1 ∧
      chatMessageCount
          (upsertMessage ⟨"id1", "A", "x", "X", "hi", 1, false, MessageStatus.read, MessageType.text⟩
            [⟨"id1", "A", "x", "X", "hi", 1, false, MessageStatus.sent, MessageType.text⟩]) "A"
        = chatMessageCount [⟨"id1", "A", "x", "X", "hi", 1, false, MessageStatus.sent, MessageType.text⟩] "A" ∧
      lookupMessage
          (upsertMessage ⟨"id1", "A", "x", "X", "hi", 1, false, MessageStatus.read, MessageType.text⟩
            [⟨"id1", "A", "x", "X", "hi", 1, false, MessageStatus.sent, MessageType.text⟩]) "id1"
        = some ⟨"id1", "A", "x", "X", "hi", 1, false, MessageStatus.read, MessageType.text⟩) ∧
    (upsertMessage ⟨"id2", "A", "x", "X", "yo", 2, false, MessageStatus.sent, MessageType.text⟩
        [⟨"id1", "A", "x", "X", "hi", 1, false, MessageStatus.sent, MessageType.text⟩]).length = 2 := by
  constructor
  · have h := (upsertMessage_redelivery_replace
      [⟨"id1", "A", "x", "X", "hi", 1, false, MessageStatus.sent, MessageType.text⟩]
      ⟨"id1", "A", "x", "X", "hi", 1, false, MessageStatus.read, MessageType.text⟩).1
      (by decide) (by decide)
    exact ⟨h.1, h.2.1 "A", h.2.2⟩
  · have h := (upsertMessage_redelivery_replace
      [⟨"id1", "A", "x", "X", "hi", 1, false, MessageStatus.sent, MessageType.text⟩]
      ⟨"id2", "A", "x", "X", "yo", 2, false, MessageStatus.sent, MessageType.text⟩).2
      (by decide)
    exact h.1

/-! ## C5: contact merge -/

/-- C5. Contact merge is per-field non-empty-wins, the two name fields are
updated independently of each other, and the upsert is idempotent. -/
theorem upsertContact_merge_rules (tbl : Contacts) (jid n nt : String) :
    (∀ old, tbl jid = some old → old.name ≠ "" →
       ∃ r, upsertContact jid "" nt tbl jid = some r ∧ r.name = old.name) ∧
    (∀ old, tbl jid = some old → old.notify ≠ "" →
       ∃ r, upsertContact jid n "" tbl jid = some r ∧ r.notify = old.notify) ∧
    (∀ nt', (upsertContact jid n nt tbl jid).map ContactRow.name
          = (upsertContact jid n nt' tbl jid).map ContactRow.name) ∧
    (∀ n', (upsertContact jid n nt tbl jid).map ContactRow.notify
         = (upsertContact jid n' nt tbl jid).map ContactRow.notify) ∧
    (∀ j, upsertContact jid n nt (upsertContact jid n nt tbl) j = upsertContact jid n nt tbl j) := by
  refine ⟨?_, ?_, ?_, ?_, ?_⟩
  · intro old hold _
    simp [upsertContact, hold]
  · intro old hold _
    simp [upsertContact, hold]
  · intro nt'
    cases h : tbl jid <;> simp [upsertContact, h]
  · intro n'
    cases h : tbl jid <;> simp [upsertContact, h]
  · intro j
    by_cases hj : j = jid
    · subst hj
      cases h : tbl j <;> by_cases hn : n = "" <;> by_cases hnt : nt = "" <;>
        simp [upsertContact, h, hn, hnt]
    · simp [upsertContact, hj]

/-- Witness for C5 at concrete inputs: an empty incoming name does not erase the
stored addressbook name. -/
theorem upsertContact_merge_rules_witness :
    ∃ r, upsertContact "A" "" "newnotify" (upsertContact "A" "Alice" "ally" noContacts) "A" = some r ∧
      r.name = "Alice" := by
  exact (upsertContact_merge_rules (upsertContact "A" "Alice" "ally" noContacts) "A" "x" "newnotify").1
    ⟨"Alice", "ally"⟩ (by simp [upsertContact, noContacts]) (by decide)

/-! ## C2: connection close handling -/

/-- C2. Close handling: an explicit-logout close transitions to `Disconnected`
and schedules nothing, whatever the retry counter; any other close with the
counter below the maximum (5) increments it, goes to `Connecting` and schedules
a reconnect after `min(1000·retryCount, 10000)` ms; starting from a fresh
counter, five consecutive non-logout closes schedule delays 1s..5s and exhaust
the budget, and a sixth close lands in `Disconnected` scheduling no retry. -/
theorem handleClose_policy :
    (∀ m : ConnMgr, handleClose m (some loggedOut)
        = (⟨m.retryCount, ConnectionState.disconnected⟩, none)) ∧
    (∀ (m : ConnMgr) (sc : Option Nat), sc ≠ some loggedOut → m.retryCount < maxRetries →
        handleClose m sc = (⟨m.retryCount + 1, ConnectionState.connecting⟩,
          some (min (1000 * (m.retryCount + 1)) 10000))) ∧
    ((closesFrom ⟨0, ConnectionState.connected⟩ 5).retryCount = maxRetries ∧
      (List.range 5).map
          (fun i => (handleClose (closesFrom ⟨0, ConnectionState.connected⟩ i) none).2)
        = [some 1000, some 2000, some 3000, some 4000, some 5000]) ∧
    (∀ sc : Option Nat, handleClose (closesFrom ⟨0, ConnectionState.connected⟩ 5) sc
        = (⟨5, ConnectionState.disconnected⟩, none)) := by
  refine ⟨?_, ?_, ⟨by decide, by decide⟩, ?_⟩
  · intro m
    simp [handleClose]
  · intro m sc hsc hlt
    simp [handleClose, hsc, hlt]
  · intro sc
    have h5 : (closesFrom ⟨0, ConnectionState.connected⟩ 5).retryCount = 5 := by decide
    by_cases hsc : sc = some loggedOut
    · subst hsc
      simp [handleClose, h5]
    · simp only [handleClose, h5]
      have : ¬ (sc ≠ some loggedOut ∧ (5 : Nat) < maxRetries) := by
        intro h
        exact absurd h.2 (by decide)
      rw [if_neg this]

/-- Witness for C2 at concrete inputs. -/
theorem handleClose_policy_witness :
    handleClose ⟨3, ConnectionState.connected⟩ (some loggedOut)
        = (⟨3, ConnectionState.disconnected⟩, none) ∧
    handleClose ⟨2, ConnectionState.connected⟩ none
        = (⟨3, ConnectionState.connecting⟩, some 3000) ∧
    handleClose (closesFrom ⟨0, ConnectionState.connected⟩ 5) none
        = (⟨5, ConnectionState.disconnected⟩, none) := by
  refine ⟨handleClose_policy.1 ⟨3, ConnectionState.connected⟩, ?_, handleClose_policy.2.2.2 none⟩
  have h := handleClose_policy.2.1 ⟨2, ConnectionState.connected⟩ none (by decide) (by decide)
  simpa using h

/-! ## C8: trailing-edge debounce -/

theorem debounceEmits_chain (t : Nat) :
    ∀ rest : List Nat, List.Chain' (fun a b => b < a + debounceWindow) (t :: rest) →
      debounceEmits (t :: rest) = [(t :: rest).getLast (by simp) + debounceWindow] := by
  intro rest
  induction rest generalizing t with
  | nil => intro _; simp [debounceEmits]
  | cons t' rs ih =>
    intro hc
    have h1 : t' < t + debounceWindow := List.chain'_cons.mp hc |>.1
    have h2 : List.Chain' (fun a b => b < a + debounceWindow) (t' :: rs) :=
      List.chain'_cons.mp hc |>.2
    rw [debounceEmits, if_pos h1, List.nil_append, ih t' h2]
    congr 1

/-- C8. The debounce is trailing-edge with a 300 ms quiescence window: any
nonempty chronological burst of internal calls in which each call arrives
strictly less than the window after the previous one produces exactly one
external signal, emitted one full window after the last call (so a single
isolated call produces exactly one signal, and an unbroken rapid stream
produces none until it pauses). -/
theorem debounce_single_signal (calls : List Nat) (hne : calls ≠ [])
    (hburst : List.Chain' (fun a b => b < a + debounceWindow) calls) :
    debounceEmits calls = [calls.getLast hne + debounceWindow] := by
  cases calls with
  | nil => exact absurd rfl hne
  | cons t rest => exact debounceEmits_chain t rest hburst

/-- Witness for C8 at concrete inputs: three rapid calls yield one signal 300 ms
after the last; a single call yields one signal 300 ms after it. -/
theorem debounce_single_signal_witness :
    debounceEmits [0, 100, 250] = [550] ∧ debounceEmits [1000] = [1300] := by
  constructor
  · have h := debounce_single_signal [0, 100, 250] (by decide)
      (by norm_num [List.chain'_cons, debounceWindow])
    simpa using h
  · have h := debounce_single_signal [1000] (by decide) (by simp)
    simpa using h

/-! ## C3: ContentExtractor unwrapping -/

/-- C3. ContentExtractor unwrapping: a protocol notification that is not an
edit (wrong type or no embedded replacement) extracts to the empty-body
sentinel, as does a sole key-distribution entry; an edit-type protocol
notification recurses into its embedded replacement content and returns that
content's extraction; and a chain ephemeral → view-once → edited around a
plain-text payload returns that plain text with type `Text`, discarding every
wrapper. -/
theorem extractContent_protocol_and_unwrap
    (skdm stick loc lloc pUpd tpl ord pay pin keep : Bool)
    (conv : String) (ext img vid docm cont react p1 p2 p3 btn gInv : Option String)
    (aud : Option Bool) (contArr : Option Nat) (lst inter : Option (String × String)) :
    (∀ (pt : Option Nat) (ed : Option WAContent), (pt ≠ some 14 ∨ ed = none) →
      extractContent (some (WAContent.mk none none none none none none (some (pt, ed))
          skdm conv ext img vid aud docm stick cont contArr loc lloc react p1 p2 p3 pUpd
          lst btn tpl gInv inter ord pay pin keep)) = ⟨"", MessageType.unknown⟩) ∧
    (extractContent (some (WAContent.mk none none none none none none none
          true "" none img vid aud docm stick cont contArr loc lloc react p1 p2 p3 pUpd
          lst btn tpl gInv inter ord pay pin keep)) = ⟨"", MessageType.unknown⟩) ∧
    (∀ em : WAContent,
      extractContent (some (WAContent.mk none none none none none none (some (some 14, some em))
          skdm conv ext img vid aud docm stick cont contArr loc lloc react p1 p2 p3 pUpd
          lst btn tpl gInv inter ord pay pin keep)) = extractContent (some em)) ∧
    (∀ s : String, s ≠ "" →
      extractContent (some (ephemeralWrap (viewOnceWrap (editedWrap (textMsg s)))))
        = ⟨s, MessageType.text⟩) := by
  refine ⟨?_, ?_, ?_, ?_⟩
  · rintro pt ed (hpt | rfl)
    · cases ed with
      | none => simp [extractContent]
      | some e => simp [extractContent, hpt]
    · simp [extractContent]
  · simp [extractContent]
  · intro em
    simp [extractContent]
  · intro s hs
    simp [extractContent, ephemeralWrap, viewOnceWrap, editedWrap, textMsg, extractTerminal, hs]

/-- Witness for C3 at concrete inputs: a non-edit protocol notification (type 7)
extracts to the sentinel, and a triple-wrapped plain text survives unwrapping. -/
theorem extractContent_protocol_and_unwrap_witness :
    extractContent (some (protoNotif (some 7) none)) = ⟨"", MessageType.unknown⟩ ∧
    extractContent (some (ephemeralWrap (viewOnceWrap (editedWrap (textMsg "hello")))))
      = ⟨"hello", MessageType.text⟩ := by
  have h := extractContent_protocol_and_unwrap
    false false false false false false false false false false
    "" none none none none none none none none none none none
    none none none none
  exact ⟨h.1 (some 7) none (Or.inl (by decide)), h.2.2.2 "hello" (by decide)⟩

/-! ## C10: key distribution alongside real content -/

/-- C10 counterexample. The claim says the "no content" sentinel is returned
for key distribution only when the key-distribution entry is the envelope's
sole content; but the guard only checks `conversation` and
`extendedTextMessage`, so an envelope carrying key distribution together with
an image (caption "pic") still extracts to the sentinel — while the identical
envelope without the key-distribution entry extracts the image. -/
theorem skd_sentinel_despite_image_cex :
    extractContent (some (probeEnvelope true "" none (some "pic")))
      = ⟨"", MessageType.unknown⟩ ∧
    extractContent (some (probeEnvelope false "" none (some "pic")))
      = ⟨"pic", MessageType.image⟩ := by
  constructor
  · simp [extractContent, probeEnvelope]
  · simp [extractContent, probeEnvelope, extractTerminal]

/-- C10 (amended). A key-distribution entry alongside a non-empty
`conversation` text or a non-empty `extendedTextMessage` text extracts that
text with type `Text`; the sentinel is returned exactly when the envelope has
no conversation text and no extended-text entry, even if other (e.g. media)
content is present. -/
theorem skd_guard_text_only
    (stick loc lloc pUpd tpl ord pay pin keep : Bool)
    (img vid docm cont react p1 p2 p3 btn gInv : Option String)
    (aud : Option Bool) (contArr : Option Nat) (lst inter : Option (String × String)) :
    (∀ (conv : String) (ext : Option String), conv ≠ "" →
      extractContent (some (WAContent.mk none none none none none none none
          true conv ext img vid aud docm stick cont contArr loc lloc react p1 p2 p3 pUpd
          lst btn tpl gInv inter ord pay pin keep)) = ⟨conv, MessageType.text⟩) ∧
    (∀ t : String, t ≠ "" →
      extractContent (some (WAContent.mk none none none none none none none
          true "" (some t) img vid aud docm stick cont contArr loc lloc react p1 p2 p3 pUpd
          lst btn tpl gInv inter ord pay pin keep)) = ⟨t, MessageType.text⟩) ∧
    (extractContent (some (WAContent.mk none none none none none none none
          true "" none img vid aud docm stick cont contArr loc lloc react p1 p2 p3 pUpd
          lst btn tpl gInv inter ord pay pin keep)) = ⟨"", MessageType.unknown⟩) := by
  refine ⟨?_, ?_, ?_⟩
  · intro conv ext hconv
    simp [extractContent, extractTerminal, hconv]
  · intro t ht
    simp [extractContent, extractTerminal, ht]
  · simp [extractContent]

/-- Witness for C10's amended statement at concrete inputs: key distribution
plus conversation text "hey" (with an unrelated image caption present) yields
the text; key distribution plus extended text "yo" yields the text; key
distribution alone yields the sentinel. -/
theorem skd_guard_text_only_witness :
    extractContent (some (probeEnvelope true "hey" none (some "pic")))
      = ⟨"hey", MessageType.text⟩ ∧
    extractContent (some (probeEnvelope true "" (some "yo") none))
      = ⟨"yo", MessageType.text⟩ ∧
    extractContent (some (probeEnvelope true "" none none))
      = ⟨"", MessageType.unknown⟩ := by
  have h1 := skd_guard_text_only false false false false false false false false false
    (some "pic") none none none none none none none none none
    none none none none
  have h2 := skd_guard_text_only false false false false false false false false false
    none none none none none none none none none none
    none none none none
  exact ⟨h1.1 "hey" none (by decide), h2.2.1 "yo" (by decide), h2.2.2⟩

/-! ## C9: display-name resolution of the chat list -/

/-- C9 counterexample. `getAllChats` applies no identifier-derived fallback:
for a stored conversation with empty name and no contact row, the returned name
is `""`, not the phone-number-shaped string derived from the identifier. -/
theorem getAllChats_no_phone_fallback_cex :
    (getAllChats [⟨"123@s.whatsapp.net", "", "", 0, 0, false⟩] noContacts).map ChatRow.name
      = [""] ∧
    jidToPhoneNumber "123@s.whatsapp.net" = "+123" ∧
    ("" : String) ≠ "+123" := by
  refine ⟨?_, by decide, by decide⟩
  simp [getAllChats, List.insertionSort, contactDisplay, noContacts]

/-- C9 (amended). Every conversation returned by `getAllChats` carries the
first non-empty value of the chain addressbook name → notify name → stored
conversation name (and the row's other fields unchanged); when all three are
empty the returned name is empty — the identifier-derived phone-number fallback
is applied when conversations are stored, not by the list read view. -/
theorem getAllChats_name_resolution (chats : List ChatRow) (contacts : Contacts) :
    ∀ c ∈ getAllChats chats contacts, ∃ row ∈ chats, c.jid = row.jid ∧
      c.name = displayNameChain (contacts row.jid) row.name ∧
      c.lastMessage = row.lastMessage ∧ c.lastMessageAt = row.lastMessageAt ∧
      c.unreadCount = row.unreadCount := by
  intro c hc
  simp only [getAllChats, List.mem_map] at hc
  obtain ⟨row, hrow, rfl⟩ := hc
  have hmem : row ∈ chats := ((List.perm_insertionSort _ chats).mem_iff).mp hrow
  refine ⟨row, hmem, rfl, ?_, rfl, rfl, rfl⟩
  cases h : contacts row.jid with
  | none => simp [contactDisplay, displayNameChain, h]
  | some ct =>
      by_cases h1 : ct.name = "" <;> by_cases h2 : ct.notify = "" <;>
        simp [contactDisplay, displayNameChain, h, h1, h2]

/-- Witness for C9's amended statement at a concrete store: a conversation with
stored name "Stored" and a contact row whose addressbook name is empty but
whose notify name is "Notify" is listed as "Notify". -/
theorem getAllChats_name_resolution_witness :
    ∃ row ∈ [(⟨"A", "Stored", "m", 5, 0, false⟩ : ChatRow)],
      (⟨"A", "Notify", "m", 5, 0, false⟩ : ChatRow).jid = row.jid ∧
      (⟨"A", "Notify", "m", 5, 0, false⟩ : ChatRow).name
        = displayNameChain (upsertContact "A" "" "Notify" noContacts row.jid) row.name ∧
      (⟨"A", "Notify", "m", 5, 0, false⟩ : ChatRow).lastMessage = row.lastMessage ∧
      (⟨"A", "Notify", "m", 5, 0, false⟩ : ChatRow).lastMessageAt = row.lastMessageAt ∧
      (⟨"A", "Notify", "m", 5, 0, false⟩ : ChatRow).unreadCount = row.unreadCount := by
  refine getAllChats_name_resolution [⟨"A", "Stored", "m", 5, 0, false⟩]
    (upsertContact "A" "" "Notify" noContacts) ⟨"A", "Notify", "m", 5, 0, false⟩ ?_
  simp [getAllChats, List.insertionSort, contactDisplay, upsertContact, noContacts]

/-! ## C6: unread counter on incoming messages -/

theorem unread_upsertChat_zero (jid : String) (chat : ChatRow) (tbl : List ChatRow)
    (hjid : chat.jid = jid) (h0 : chat.unreadCount = 0) :
    ∃ r, lookupChat (upsertChat chat tbl) jid = some r ∧ r.unreadCount = 0 := by
  subst hjid
  rw [lookupChat_upsertChat_self]
  cases lookupChat tbl chat.jid with
  | none => exact ⟨chat, rfl, h0⟩
  | some old => exact ⟨mergeChat old chat, rfl, h0⟩

theorem unread_upsertChat_increment (jid : String) (chat : ChatRow) (tbl : List ChatRow)
    (hjid : chat.jid = jid) (h0 : chat.unreadCount = 0) :
    ∃ r, lookupChat (incrementUnreadCount jid (upsertChat chat tbl)) jid = some r ∧
      r.unreadCount = 1 := by
  subst hjid
  rw [lookupChat_incrementUnread_self, lookupChat_upsertChat_self]
  cases lookupChat tbl chat.jid with
  | none => exact ⟨_, rfl, by simp [h0]⟩
  | some old => exact ⟨_, rfl, by simp [mergeChat, h0]⟩

/-- The `messages.upsert` handler overwrites the stored unread counter through
`upsertChat` (which copies the incoming value 0 verbatim) and then increments
it for non-owner messages, so the resulting counter is 1 for a non-owner
message and 0 for an owner message, regardless of the prior stored value. -/
theorem handleIncoming_unread_aux (now : Nat) (s : Store) (msg : WAMsg) (key : WAKey)
    (rjid : String) (parsed : MessageRow)
    (hkey : msg.key = some key) (hrjid : key.remoteJid = some rjid)
    (hr1 : ¬ rjid = "") (hr2 : ¬ rjid = "status@broadcast")
    (hparse : parseMessage now msg = some parsed) (hbody : ¬ parsed.body = "") :
    ∃ r, lookupChat (handleIncomingMessage now s msg).chats parsed.chatJid = some r ∧
      r.unreadCount = (if parsed.isFromMe then 0 else 1) := by
  simp only [handleIncomingMessage, hkey, hrjid, hparse, if_neg hr1, if_neg hr2, if_neg hbody]
  by_cases hme : parsed.isFromMe
  · simp only [hme]
    simp only [if_pos trivial, ite_true, ite_false, not_true, Bool.not_eq_true]
    apply unread_upsertChat_zero parsed.chatJid _ s.chats <;> rfl
  · simp only [Bool.not_eq_true] at hme
    simp only [hme]
    simp only [Bool.false_eq_true, not_false_iff, ite_true, ite_false]
    apply unread_upsertChat_increment parsed.chatJid _ s.chats <;> rfl

/-- C6 counterexample. A conversation stored with unread count 2 receives an
incremental non-owner message with non-empty body: the resulting unread count
is 1, not the prior value plus one (3) as the claim states. -/
theorem unread_not_incremented_cex :
    ((lookupChat (handleIncomingMessage 0
        ⟨noContacts, [⟨"123@s.whatsapp.net", "Alice", "hi", 1, 2, false⟩], []⟩
        ⟨some ⟨some "123@s.whatsapp.net", some false, none, some "mid1"⟩,
          some "Alice", some 2, none, some (textMsg "there")⟩).chats
      "123@s.whatsapp.net").map ChatRow.unreadCount = some 1) ∧
    ¬ ((lookupChat (handleIncomingMessage 0
        ⟨noContacts, [⟨"123@s.whatsapp.net", "Alice", "hi", 1, 2, false⟩], []⟩
        ⟨some ⟨some "123@s.whatsapp.net", some false, none, some "mid1"⟩,
          some "Alice", some 2, none, some (textMsg "there")⟩).chats
      "123@s.whatsapp.net").map ChatRow.unreadCount = some (2 + 1)) := by
  have hparse : parseMessage 0
      ⟨some ⟨some "123@s.whatsapp.net", some false, none, some "mid1"⟩,
        some "Alice", some 2, none, some (textMsg "there")⟩
      = some ⟨"mid1", "123@s.whatsapp.net", "123@s.whatsapp.net", "Alice", "there",
          2000, false, MessageStatus.sent, MessageType.text⟩ := by
    simp [parseMessage, extractContent, textMsg, extractTerminal, jsOr, mapStatus]
  obtain ⟨r, hr, hu⟩ := handleIncoming_unread_aux 0
    ⟨noContacts, [⟨"123@s.whatsapp.net", "Alice", "hi", 1, 2, false⟩], []⟩
    ⟨some ⟨some "123@s.whatsapp.net", some false, none, some "mid1"⟩,
      some "Alice", some 2, none, some (textMsg "there")⟩
    ⟨some "123@s.whatsapp.net", some false, none, some "mid1"⟩
    "123@s.whatsapp.net"
    ⟨"mid1", "123@s.whatsapp.net", "123@s.whatsapp.net", "Alice", "there",
      2000, false, MessageStatus.sent, MessageType.text⟩
    rfl rfl (by decide) (by decide) hparse (by decide)
  rw [hr]
  simp at hu
  simp [hu]

/-- C6 (amended). Processing an incremental single-message event whose body is
non-empty sets the owning conversation's stored unread counter to exactly 1
when the sender is not the owner, and to exactly 0 when the sender is the
owner, regardless of the previously stored value (the chat upsert overwrites
the counter with 0 before the increment). -/
theorem handleIncoming_unread_overwrite (now : Nat) (s : Store) (msg : WAMsg) (key : WAKey)
    (rjid : String) (parsed : MessageRow)
    (hkey : msg.key = some key) (hrjid : key.remoteJid = some rjid)
    (hr1 : ¬ rjid = "") (hr2 : ¬ rjid = "status@broadcast")
    (hparse : parseMessage now msg = some parsed) (hbody : ¬ parsed.body = "") :
    (parsed.isFromMe = false →
      ∃ r, lookupChat (handleIncomingMessage now s msg).chats parsed.chatJid = some r ∧
        r.unreadCount = 1) ∧
    (parsed.isFromMe = true →
      ∃ r, lookupChat (handleIncomingMessage now s msg).chats parsed.chatJid = some r ∧
        r.unreadCount = 0) := by
  have h := handleIncoming_unread_aux now s msg key rjid parsed hkey hrjid hr1 hr2 hparse hbody
  constructor
  · intro hme
    obtain ⟨r, hr, hu⟩ := h
    rw [hme] at hu
    exact ⟨r, hr, by simpa using hu⟩
  · intro hme
    obtain ⟨r, hr, hu⟩ := h
    rw [hme] at hu
    exact ⟨r, hr, by simpa using hu⟩

/-- Witness for C6's amended statement: the concrete non-owner event of the
counterexample ends with unread count 1 even though the prior value was 2. -/
theorem handleIncoming_unread_overwrite_witness :
    ∃ r, lookupChat (handleIncomingMessage 0
        ⟨noContacts, [⟨"123@s.whatsapp.net", "Alice", "hi", 1, 2, false⟩], []⟩
        ⟨some ⟨some "123@s.whatsapp.net", some false, none, some "mid1"⟩,
          some "Alice", some 2, none, some (textMsg "there")⟩).chats
      "123@s.whatsapp.net" = some r ∧ r.unreadCount = 1 := by
  have hparse : parseMessage 0
      ⟨some ⟨some "123@s.whatsapp.net", some false, none, some "mid1"⟩,
        some "Alice", some 2, none, some (textMsg "there")⟩
      = some ⟨"mid1", "123@s.whatsapp.net", "123@s.whatsapp.net", "Alice", "there",
          2000, false, MessageStatus.sent, MessageType.text⟩ := by
    simp [parseMessage, extractContent, textMsg, extractTerminal, jsOr, mapStatus]
  exact (handleIncoming_unread_overwrite 0
    ⟨noContacts, [⟨"123@s.whatsapp.net", "Alice", "hi", 1, 2, false⟩], []⟩
    ⟨some ⟨some "123@s.whatsapp.net", some false, none, some "mid1"⟩,
      some "Alice", some 2, none, some (textMsg "there")⟩
    ⟨some "123@s.whatsapp.net", some false, none, some "mid1"⟩
    "123@s.whatsapp.net"
    ⟨"mid1", "123@s.whatsapp.net", "123@s.whatsapp.net", "Alice", "there",
      2000, false, MessageStatus.sent, MessageType.text⟩
    rfl rfl (by decide) (by decide) hparse (by decide)).1 rfl

/-! ## C7: outbound send -/

/-- C7. Outbound send: on transport success the synthesized record has
origin = owner and status = sent, is persisted under its ID and returned, the
contacts table is untouched, and the destination conversation is updated with
preview = the sent text through the same `upsertChat` merge as inbound messages
(created with that preview when absent, preview/timestamp replaced when the
send time is newer than the stored timestamp); on transport failure (no socket,
rejected promise, or nullish result) the caller gets `none` and the store is
completely unmutated. -/
theorem sendMessage_success_failure (outcome : SendOutcome) (now : Nat) (jid text : String)
    (s : Store) :
    (∀ idOpt, outcome = SendOutcome.ok idOpt →
      ∃ m, (sendMessage outcome now jid text s).1 = some m ∧
        m.isFromMe = true ∧ m.status = MessageStatus.sent ∧ m.body = text ∧ m.chatJid = jid ∧
        lookupMessage (sendMessage outcome now jid text s).2.messages m.id = some m ∧
        (sendMessage outcome now jid text s).2.chats
          = upsertChat ⟨jid, "", text, now, 0, isGroupJid jid⟩ s.chats ∧
        (sendMessage outcome now jid text s).2.contacts = s.contacts ∧
        (lookupChat s.chats jid = none →
          lookupChat (sendMessage outcome now jid text s).2.chats jid
            = some ⟨jid, "", text, now, 0, isGroupJid jid⟩) ∧
        (∀ old, lookupChat s.chats jid = some old → old.lastMessageAt < now →
          ∃ r, lookupChat (sendMessage outcome now jid text s).2.chats jid = some r ∧
            r.lastMessage = text ∧ r.lastMessageAt = now)) ∧
    ((outcome = SendOutcome.noSock ∨ outcome = SendOutcome.reject ∨
        outcome = SendOutcome.sentNull) →
      (sendMessage outcome now jid text s).1 = none ∧
      (sendMessage outcome now jid text s).2 = s) := by
  constructor
  · rintro idOpt rfl
    refine ⟨_, rfl, rfl, rfl, rfl, rfl, lookupMessage_upsertMessage_self _ s.messages,
      rfl, rfl, ?_, ?_⟩
    · intro hnone
      have h := lookupChat_upsertChat_self ⟨jid, "", text, now, 0, isGroupJid jid⟩ s.chats
      rw [show (⟨jid, "", text, now, 0, isGroupJid jid⟩ : ChatRow).jid = jid from rfl,
        hnone] at h
      simpa using h
    · intro old hold hlt
      have h := lookupChat_upsertChat_self ⟨jid, "", text, now, 0, isGroupJid jid⟩ s.chats
      rw [show (⟨jid, "", text, now, 0, isGroupJid jid⟩ : ChatRow).jid = jid from rfl,
        hold] at h
      simp only [Option.elim] at h
      refine ⟨_, h, ?_, ?_⟩
      · simp [mergeChat, hlt]
      · simp [mergeChat, Nat.max_eq_left (Nat.le_of_lt hlt)]
  · rintro (rfl | rfl | rfl) <;> exact ⟨rfl, rfl⟩

/-- Witness for C7 at concrete inputs: a successful send of "ok" to the absent
conversation "b@g.us" returns an owner-originated sent record, stores it, and
creates the conversation with preview "ok"; a rejected transport call returns
`none` and leaves the empty store unchanged. -/
theorem sendMessage_success_failure_witness :
    (∃ m, (sendMessage (SendOutcome.ok (some "SID")) 7 "b@g.us" "ok"
          ⟨noContacts, [], []⟩).1 = some m ∧
      m.isFromMe = true ∧ m.status = MessageStatus.sent ∧ m.body = "ok" ∧ m.chatJid = "b@g.us" ∧
      lookupMessage (sendMessage (SendOutcome.ok (some "SID")) 7 "b@g.us" "ok"
          ⟨noContacts, [], []⟩).2.messages m.id = some m ∧
      lookupChat (sendMessage (SendOutcome.ok (some "SID")) 7 "b@g.us" "ok"
          ⟨noContacts, [], []⟩).2.chats "b@g.us"
        = some ⟨"b@g.us", "", "ok", 7, 0, isGroupJid "b@g.us"⟩) ∧
    ((sendMessage SendOutcome.reject 7 "b@g.us" "ok" ⟨noContacts, [], []⟩).1 = none ∧
      (sendMessage SendOutcome.reject 7 "b@g.us" "ok" ⟨noContacts, [], []⟩).2
        = ⟨noContacts, [], []⟩) := by
  constructor
  · obtain ⟨m, h1, h2, h3, h4, h5, h6, _, _, hcreate, _⟩ :=
      (sendMessage_success_failure (SendOutcome.ok (some "SID")) 7 "b@g.us" "ok"
        ⟨noContacts, [], []⟩).1 (some "SID") rfl
    exact ⟨m, h1, h2, h3, h4, h5, h6, hcreate rfl⟩
  · exact (sendMessage_success_failure SendOutcome.reject 7 "b@g.us" "ok"
      ⟨noContacts, [], []⟩).2 (Or.inr (Or.inl rfl))

end WhatsCli
